import Mathlib

/-!
Verification of the emotion-recognition Flask server (src/app.py) against its
natural-language specification.  The Python code is shallowly embedded:
pure fragments become Lean functions, the mutable module-level settings
(current_camera_index, current_model_type) become explicit state threading,
request handlers become functions from a request value and the current state
to a status code, a response body and the new state.  Library calls
(cv2, PIL, DeepFace, the model runtimes) are modelled by parameters or by
definitions that follow their documented behaviour; every repository-level
branch is translated line by line.
-/

namespace EmotionApp

/-- The fixed emotion label list, src/app.py line 51. -/
def EMOTION_LABELS : List String :=
  ["Angry", "Disgust", "Fear", "Happy", "Neutral", "Sad", "Surprise"]

/-- Availability of the three backends, fixed at process startup:
DEEPFACE_AVAILABLE, ONNX_SESSION is not None, KERAS_MODEL is not None
(src/app.py lines 13-42). -/
structure Avail where
  deepface : Bool
  onnx : Bool
  keras : Bool
deriving DecidableEq, Repr

/-- The process-wide mutable settings: current_camera_index and
current_model_type (src/app.py lines 54-55). -/
structure Config where
  camera_index : Int
  model_type : String
deriving DecidableEq, Repr

/-- A detected axis-aligned face rectangle (x, y, w, h) in pixel
coordinates, as produced by detectMultiScale or by the DeepFace region. -/
structure Region where
  x : Int
  y : Int
  w : Int
  h : Int
deriving DecidableEq, Repr

/-- One per-face entry of the results list built by the three
process_frame_with_* functions: bounding box, top emotion label, and the
confidence of that top emotion (src/app.py lines 163-167, 211-215, 271-275). -/
structure FaceResult where
  box : Region
  emotion : String
  confidence : ℚ
deriving DecidableEq, Repr

/- ----------------------------------------------------------------- -/
/- Settings endpoint: POST /api/settings (src/app.py lines 336-360)  -/
/- ----------------------------------------------------------------- -/

/-- The JSON body of a POST /api/settings request: each of the two keys may
be present or absent (src/app.py lines 343 and 346 test key membership).
A present camera_index is modelled as the integer it converts to. -/
structure SettingsRequest where
  camera_index : Option Int
  model_type : Option String
deriving DecidableEq, Repr

/-- Response body of update_settings: either the JSON echo of the two
current settings (src/app.py lines 357-360) or the error object of the
400 branch (line 355). -/
inductive SettingsBody
  | ok (camera_index : Int) (model_type : String)
  | error (msg : String)
deriving DecidableEq, Repr

/-- Outcome of one update_settings call: HTTP status, response body, and
the settings state after the call. -/
structure SettingsOutcome where
  status : Nat
  body : SettingsBody
  store : Config
deriving DecidableEq, Repr

/-- Embedding of update_settings (src/app.py lines 336-360).  The handler
first applies camera_index when the key is present (lines 343-344), then
validates model_type when that key is present (lines 346-355): the three
guards match the literal backend name against availability; any other case
returns 400 with the error body, after the camera assignment has already
happened.  On success it echoes the (new) current settings with status 200. -/
def update_settings (avail : Avail) (cfg : Config) (data : SettingsRequest) :
    SettingsOutcome :=
  let cfg1 : Config :=
    match data.camera_index with
    | some i => { cfg with camera_index := i }
    | none => cfg
  match data.model_type with
  | some mt =>
    if mt = "deepface" ∧ avail.deepface then
      let cfg2 := { cfg1 with model_type := "deepface" }
      ⟨200, .ok cfg2.camera_index cfg2.model_type, cfg2⟩
    else if mt = "onnx" ∧ avail.onnx then
      let cfg2 := { cfg1 with model_type := "onnx" }
      ⟨200, .ok cfg2.camera_index cfg2.model_type, cfg2⟩
    else if mt = "keras" ∧ avail.keras then
      let cfg2 := { cfg1 with model_type := "keras" }
      ⟨200, .ok cfg2.camera_index cfg2.model_type, cfg2⟩
    else
      ⟨400, .error "Model not available", cfg1⟩
  | none => ⟨200, .ok cfg1.camera_index cfg1.model_type, cfg1⟩

/- ----------------------------------------------------------------- -/
/- Startup backend selection (src/app.py lines 430-441)              -/
/- ----------------------------------------------------------------- -/

/-- Embedding of the startup default-model selection in the main block
(src/app.py lines 430-441): if DeepFace is available the default is
deepface, else if the ONNX session loaded it is onnx, else if the Keras
model loaded it is keras; when nothing loaded, the module-level initial
value deepface of line 55 is left in place (only a warning is printed). -/
def startup_model_type (avail : Avail) : String :=
  if avail.deepface then "deepface"
  else if avail.onnx then "onnx"
  else if avail.keras then "keras"
  else "deepface"

/-- Modelled from the spec: the first available backend in the priority
order EndToEndModel (deepface), then PortableModel (onnx), then
NativeModel (keras); none when no backend is available.  Used only to
compare the startup selection of the code against the priority order the
spec states. -/
def spec_first_available (avail : Avail) : Option String :=
  if avail.deepface then some "deepface"
  else if avail.onnx then some "onnx"
  else if avail.keras then some "keras"
  else none

/- ----------------------------------------------------------------- -/
/- Per-backend frame processing                                      -/
/- ----------------------------------------------------------------- -/

/-- Index of the first maximum of a list of rationals, as computed by
np.argmax over a prediction row: ties return the earliest index. -/
def argmax (l : List ℚ) : Nat :=
  (l.enum.foldl (fun best p => if p.2 > best.2 then p else best)
    (0, l.headD 0)).1

/-- Per-face loop body shared by process_frame_with_onnx and
process_frame_with_keras (src/app.py lines 130-169 and 179-217): the
preprocessor may return none (its internal try/except, lines 89-91 and
103-105), in which case the region is skipped by the "is not None" guard;
otherwise the model call may raise (modelled as Except.error), which the
inner try/except catches, also skipping the region; on success the result
entry pairs the box with the argmax label and its confidence. -/
def faceStep (preproc : Region → Option (List ℚ))
    (run : List ℚ → Except String (List ℚ)) (f : Region) :
    Option FaceResult :=
  match preproc f with
  | none => none
  | some t =>
    match run t with
    | .error _ => none
    | .ok preds =>
      let i := argmax preds
      some ⟨f, EMOTION_LABELS.getD i "", preds.getD i 0⟩

/-- Embedding of the results accumulation of process_frame_with_onnx
(src/app.py lines 129-171): iterate the detected faces in order,
appending one entry per face whose preprocessing and model call both
succeed.  The drawing calls mutate only the frame bitmap and are omitted;
the returned results list is what the claims are about. -/
def process_frame_with_onnx (preproc : Region → Option (List ℚ))
    (run : List ℚ → Except String (List ℚ)) (faces : List Region) :
    List FaceResult :=
  faces.foldl
    (fun results f =>
      match faceStep preproc run f with
      | some r => results ++ [r]
      | none => results) []

/-- Embedding of the results accumulation of process_frame_with_keras
(src/app.py lines 178-219), textually parallel to the ONNX variant with
the Keras preprocessor and model in place of the ONNX ones. -/
def process_frame_with_keras (preproc : Region → Option (List ℚ))
    (run : List ℚ → Except String (List ℚ)) (faces : List Region) :
    List FaceResult :=
  faces.foldl
    (fun results f =>
      match faceStep preproc run f with
      | some r => results ++ [r]
      | none => results) []

/-- Python str.capitalize on a label: first character upper-cased, the
rest lower-cased (src/app.py line 248). -/
def pyCapitalize (s : String) : String :=
  match s.data with
  | [] => ⟨[]⟩
  | c :: cs => ⟨c.toUpper :: cs.map Char.toLower⟩

/-- One element of the DeepFace.analyze output as consumed by
process_frame_with_deepface: the detected region, the dominant emotion
label (lower case, as DeepFace reports it), and the score of that label
on the DeepFace 0-100 scale. -/
structure DFDetection where
  region : Region
  dominant_emotion : String
  score : ℚ
deriving DecidableEq, Repr

/-- The whole-image filter condition of process_frame_with_deepface
(src/app.py line 238): the detection is skipped exactly when its width
exceeds 0.9 of the frame width AND its height exceeds 0.9 of the frame
height.  The Python comparison is in floating point; over the integer
pixel sizes involved it coincides with the exact rational comparison
w > 9/10 * frame_w, written here multiplied out over ℤ. -/
def isWholeImage (frame_w frame_h : Int) (r : Region) : Bool :=
  10 * r.w > 9 * frame_w ∧ 10 * r.h > 9 * frame_h

/-- Embedding of the per-detection loop of process_frame_with_deepface
(src/app.py lines 231-275): each DeepFace detection is dropped when the
whole-image filter fires (lines 238-240), and otherwise contributes a
results entry with the capitalized dominant emotion and the score
rescaled from 0-100 to 0-1 (lines 242-275). -/
def process_frame_with_deepface (frame_w frame_h : Int)
    (detections : List DFDetection) : List FaceResult :=
  detections.foldl
    (fun results d =>
      if isWholeImage frame_w frame_h d.region then results
      else results ++
        [⟨d.region, pyCapitalize d.dominant_emotion, d.score / 100⟩]) []

/- ----------------------------------------------------------------- -/
/- Predict endpoint: POST /predict (src/app.py lines 362-416)        -/
/- ----------------------------------------------------------------- -/

/-- The 200 response body of /predict (src/app.py lines 401-407). -/
structure PredictSuccess where
  success : Bool
  prediction : String
  confidence : ℚ
  box : List Int
  all_predictions : List (String × ℚ)
deriving DecidableEq, Repr

/-- Response bodies of /predict: the success object, or an error object
carrying an optional success flag (the no-face 400 body of lines 409-412
has success false; the other error bodies have no success key). -/
inductive PredictBody
  | success (resp : PredictSuccess)
  | err (success : Option Bool) (msg : String)
deriving DecidableEq, Repr

/-- Embedding of the tail of predict (src/app.py lines 390-412): with a
non-empty results list, the top result is results[0], all_predictions
maps every results entry to its (emotion, confidence) pair in order, and
the 200 body is assembled from them; with an empty results list the
response is 400 with success false and the no-face error message. -/
def respond (results : List FaceResult) : Nat × PredictBody :=
  match results with
  | [] => (400, .err (some false) "No face detected")
  | top :: _ =>
    (200, .success
      { success := true
        prediction := top.emotion
        confidence := top.confidence
        box := [top.box.x, top.box.y, top.box.w, top.box.h]
        all_predictions :=
          results.map (fun r => (r.emotion, r.confidence)) })

/-- A POST /predict request as the handler observes it: whether the
multipart form has a file key, the filename of that part, and the result
of cv2.imdecode on its bytes (none when the bytes are not a decodable
image).  The Image type parameter stands for a decoded bitmap. -/
structure PredictRequest (Image : Type) where
  hasFile : Bool
  filename : String
  decoded : Option Image

/-- Embedding of predict (src/app.py lines 362-416), parameterized by the
three frame processors (process_frame_with_deepface, onnx, keras applied
to the decoded frame and the loaded cascade and sessions).  Branch by
branch: missing file key gives 400 (lines 366-367); empty filename gives
400 (lines 371-372); then the handler dispatches on current_model_type
and availability (lines 379-388).  When cv2.imdecode returned None, the
DeepFace processor catches the exception that DeepFace.analyze raises on
a None frame inside its own try/except (lines 277-278) and returns an
empty results list, so that path falls to the no-face 400; the ONNX and
Keras processors call cv2.cvtColor on the None frame first (lines 126 and
175), which raises outside any inner handler, so the exception reaches
the outer handler of lines 414-416 and produces a 500.  When no backend
matches, the response is the 500 of line 388. -/
def predict {Image : Type} (avail : Avail) (model_type : String)
    (proc_deepface : Image → List FaceResult)
    (proc_onnx : Image → List FaceResult)
    (proc_keras : Image → List FaceResult)
    (req : PredictRequest Image) : Nat × PredictBody :=
  if req.hasFile = false then (400, .err none "No file uploaded")
  else if req.filename = "" then (400, .err none "Empty filename")
  else if model_type = "deepface" ∧ avail.deepface then
    match req.decoded with
    | none => respond []
    | some img => respond (proc_deepface img)
  else if model_type = "onnx" ∧ avail.onnx then
    match req.decoded with
    | none => (500, .err none "Prediction failed: bad frame")
    | some img => respond (proc_onnx img)
  else if model_type = "keras" ∧ avail.keras then
    match req.decoded with
    | none => (500, .err none "Prediction failed: bad frame")
    | some img => respond (proc_keras img)
  else (500, .err none "No model available")

/- ----------------------------------------------------------------- -/
/- Region preprocessors (src/app.py lines 83-105)                    -/
/- ----------------------------------------------------------------- -/

/-- Height of a grayscale image stored as a list of pixel rows. -/
def gridH (img : List (List Nat)) : Nat := img.length

/-- Width of a grayscale image stored as a list of pixel rows. -/
def gridW (img : List (List Nat)) : Nat := (img.headD []).length

/-- Pixel fetch with the out-of-range default never reached on clamped
indices. -/
def getPx (img : List (List Nat)) (r c : Nat) : Nat :=
  (img.getD r []).getD c 0

/-- Clamp an integer index into 0 .. n-1 (edge replication at borders,
the border convention of the library resize on boundary samples). -/
def clampIdx (n : Nat) (i : Int) : Nat := min (n - 1) (max 0 i).toNat

/-- Source coordinate of destination sample j under the half-pixel-center
convention used by the library resize: (j + 1/2) * src / dst - 1/2. -/
def srcCoord (src dst : Nat) (j : Nat) : ℚ :=
  ((j : ℚ) + 1 / 2) * src / dst - 1 / 2

/-- Round to nearest and saturate into the uint8 range 0 .. 255, the
saturating cast the library applies when storing an interpolated sample
back into a uint8 image. -/
def saturateRound (v : ℚ) : Nat := min 255 (max 0 ⌊v + 1 / 2⌋).toNat

/-- Bilinear sample of a uint8 grayscale image at rational coordinates
(y, x): the four neighbouring pixels are fetched with edge replication
and blended by the fractional parts. -/
def bilinearAt (img : List (List Nat)) (y x : ℚ) : ℚ :=
  let h := gridH img
  let w := gridW img
  let y0 : Int := ⌊y⌋
  let x0 : Int := ⌊x⌋
  let fy : ℚ := y - (y0 : ℚ)
  let fx : ℚ := x - (x0 : ℚ)
  let p00 : ℚ := getPx img (clampIdx h y0) (clampIdx w x0)
  let p01 : ℚ := getPx img (clampIdx h y0) (clampIdx w (x0 + 1))
  let p10 : ℚ := getPx img (clampIdx h (y0 + 1)) (clampIdx w x0)
  let p11 : ℚ := getPx img (clampIdx h (y0 + 1)) (clampIdx w (x0 + 1))
  (1 - fy) * ((1 - fx) * p00 + fx * p01) + fy * ((1 - fx) * p10 + fx * p11)

/-- Model of the library resize of a uint8 grayscale image to 48 by 48:
cv2.resize with its default INTER_LINEAR kernel for the ONNX variant
(src/app.py line 86).  PIL Image.resize for the Keras variant (line 97)
uses a different resampling kernel, but shares the output contract this
model captures: a 48 by 48 grid of uint8 samples, each a rounded,
saturated interpolation of source pixels. -/
def resize48 (img : List (List Nat)) : List (List Nat) :=
  (List.range 48).map fun i =>
    (List.range 48).map fun j =>
      saturateRound
        (bilinearAt img (srcCoord (gridH img) 48 i) (srcCoord (gridW img) 48 j))

/-- The rank-4 tensor both preprocessors return, as nested lists:
batch, height, width, channel. -/
abbrev Tensor4 := List (List (List (List ℚ)))

/-- Scale a 48 by 48 uint8 grid by 1/255 and wrap it into shape
(1, 48, 48, 1): the division of src/app.py lines 87 and 99 followed by
np.reshape to (1, 48, 48, 1) (line 88) respectively the two expand_dims
on axes 0 and -1 (lines 100-101), which place the same numbers in the
same (batch, row, column, channel) positions. -/
def gridToTensor4 (g : List (List Nat)) : Tensor4 :=
  [g.map fun row => row.map fun (v : Nat) => [((v : ℚ) / 255)]]

/-- Embedding of preprocess_face_for_onnx (src/app.py lines 83-91):
resize to 48 by 48, scale to [0,1] by dividing by 255, reshape to
(1, 48, 48, 1).  The try/except returns None when cv2.resize raises,
which on a uint8 input happens exactly for an empty source array. -/
def preprocess_face_for_onnx (face_img : List (List Nat)) : Option Tensor4 :=
  if gridH face_img = 0 ∨ gridW face_img = 0 then none
  else some (gridToTensor4 (resize48 face_img))

/-- Embedding of preprocess_face_for_keras (src/app.py lines 93-105):
PIL round trip, resize to 48 by 48, divide by 255.0, expand_dims on axes
0 and -1.  The try/except returns None when Image.fromarray or resize
raises, which on a uint8 input happens exactly for an empty source
array; the resize is modelled by the shared resize48. -/
def preprocess_face_for_keras (face_img : List (List Nat)) : Option Tensor4 :=
  if gridH face_img = 0 ∨ gridW face_img = 0 then none
  else some (gridToTensor4 (resize48 face_img))

/-- Shape predicate for the preprocessor output: exactly the tensor shape
(1, 48, 48, 1). -/
def hasShape_1_48_48_1 (t : Tensor4) : Prop :=
  t.length = 1 ∧ ∀ a ∈ t, a.length = 48 ∧
    ∀ r ∈ a, r.length = 48 ∧ ∀ c ∈ r, c.length = 1

/-- Range predicate for the preprocessor output: every element lies in
[0, 1]. -/
def allInUnitInterval (t : Tensor4) : Prop :=
  ∀ a ∈ t, ∀ r ∈ a, ∀ c ∈ r, ∀ q ∈ c, 0 ≤ q ∧ q ≤ 1

/- ----------------------------------------------------------------- -/
/- Concrete example inputs used by counterexamples and witnesses     -/
/- ----------------------------------------------------------------- -/

/-- All three backends loaded. -/
def allAvail : Avail := ⟨true, true, true⟩

/-- Initial settings used by the settings examples. -/
def cfg0 : Config := ⟨0, "deepface"⟩

/-- Settings body with both an (integer) camera_index and an unrecognized
model_type. -/
def c2req : SettingsRequest := ⟨some 5, some "nonexistent"⟩

/-- One DeepFace detection: a face box with the dominant emotion happy at
score 90 on the 0-100 scale. -/
def c1detections : List DFDetection := [⟨⟨10, 20, 30, 40⟩, "happy", 90⟩]

/-- DeepFace processing of a frame with the single detection above. -/
def c1proc : Unit → List FaceResult :=
  fun _ => process_frame_with_deepface 100 100 c1detections

/-- Frame processor returning no faces, for the branches not under test. -/
def noFaces : Unit → List FaceResult := fun _ => []

/-- A well-formed request whose bytes decode. -/
def okReq : PredictRequest Unit := ⟨true, "face.png", some ()⟩

/-- A well-formed request whose bytes do not decode (cv2.imdecode gives
None). -/
def badImageReq : PredictRequest Unit := ⟨true, "face.png", none⟩

/-- A single face result, as the deepface processing of c1detections
produces it. -/
def oneFace : FaceResult := ⟨⟨10, 20, 30, 40⟩, "Happy", 9 / 10⟩

/-- A small detected face, listed first. -/
def smallFace : FaceResult := ⟨⟨0, 0, 10, 10⟩, "Sad", 1 / 2⟩

/-- A larger detected face, listed second. -/
def bigFace : FaceResult := ⟨⟨50, 50, 60, 60⟩, "Happy", 3 / 4⟩

/-- Example preprocessor: fails exactly on a zero-width region
(preprocessing exception caught at src/app.py lines 89-91). -/
def ppEx : Region → Option (List ℚ) :=
  fun reg => if reg.w = 0 then none else some [1]

/-- Example model run returning a fixed confidence row whose maximum sits
at index 3 (Happy). -/
def runEx : List ℚ → Except String (List ℚ) :=
  fun _ => .ok [0, 0, 0, 1, 0, 0, 0]

/-- A region the example preprocessor rejects. -/
def badRegion : Region := ⟨0, 0, 0, 0⟩

/-- A region the example preprocessor accepts. -/
def goodRegion : Region := ⟨5, 5, 20, 20⟩

/-- A DeepFace detection 95 pixels wide and 50 high in a 100 by 100
frame: its width exceeds 90 percent of the frame width, its height does
not. -/
def wideDet : DFDetection := ⟨⟨0, 0, 95, 50⟩, "angry", 80⟩

/- ----------------------------------------------------------------- -/
/- Helper lemmas                                                     -/
/- ----------------------------------------------------------------- -/

theorem process_frame_with_onnx_aux (pp : Region → Option (List ℚ))
    (run : List ℚ → Except String (List ℚ)) (faces : List Region)
    (init : List FaceResult) :
    faces.foldl
      (fun results f =>
        match faceStep pp run f with
        | some r => results ++ [r]
        | none => results) init =
      init ++ faces.filterMap (faceStep pp run) := by
  induction faces generalizing init with
  | nil => simp
  | cons x xs ih =>
    cases hx : faceStep pp run x <;>
      simp [List.filterMap_cons, hx, ih, List.append_assoc]

theorem process_frame_with_onnx_eq (pp : Region → Option (List ℚ))
    (run : List ℚ → Except String (List ℚ)) (faces : List Region) :
    process_frame_with_onnx pp run faces =
      faces.filterMap (faceStep pp run) := by
  simpa [process_frame_with_onnx] using
    process_frame_with_onnx_aux pp run faces []

theorem process_frame_with_keras_eq (pp : Region → Option (List ℚ))
    (run : List ℚ → Except String (List ℚ)) (faces : List Region) :
    process_frame_with_keras pp run faces =
      faces.filterMap (faceStep pp run) := by
  simpa [process_frame_with_keras] using
    process_frame_with_onnx_aux pp run faces []

theorem process_frame_with_deepface_aux (frame_w frame_h : Int)
    (dets : List DFDetection) (init : List FaceResult) :
    dets.foldl
      (fun results d =>
        if isWholeImage frame_w frame_h d.region then results
        else results ++
          [⟨d.region, pyCapitalize d.dominant_emotion, d.score / 100⟩]) init =
      init ++ (dets.filter (fun d => ¬ isWholeImage frame_w frame_h d.region)).map
        (fun d => ⟨d.region, pyCapitalize d.dominant_emotion, d.score / 100⟩) := by
  induction dets generalizing init with
  | nil => simp
  | cons d ds ih =>
    by_cases hd : isWholeImage frame_w frame_h d.region <;>
      simp [List.filter_cons, hd, ih, List.append_assoc]

theorem process_frame_with_deepface_eq (frame_w frame_h : Int)
    (dets : List DFDetection) :
    process_frame_with_deepface frame_w frame_h dets =
      (dets.filter (fun d => ¬ isWholeImage frame_w frame_h d.region)).map
        (fun d => ⟨d.region, pyCapitalize d.dominant_emotion, d.score / 100⟩) := by
  simpa [process_frame_with_deepface] using
    process_frame_with_deepface_aux frame_w frame_h dets []

theorem saturateRound_le (v : ℚ) : saturateRound v ≤ 255 :=
  Nat.min_le_left 255 _

theorem resize48_length (img : List (List Nat)) :
    (resize48 img).length = 48 := by
  simp [resize48]

theorem resize48_rows (img : List (List Nat)) :
    ∀ row ∈ resize48 img, row.length = 48 ∧ ∀ v ∈ row, v ≤ 255 := by
  intro row hrow
  simp only [resize48, List.mem_map, List.mem_range] at hrow
  obtain ⟨i, _, rfl⟩ := hrow
  refine ⟨by simp, ?_⟩
  intro v hv
  simp only [List.mem_map, List.mem_range] at hv
  obtain ⟨j, _, rfl⟩ := hv
  exact saturateRound_le _

/- ----------------------------------------------------------------- -/
/- Claim theorems                                                    -/
/- ----------------------------------------------------------------- -/

/-- C2 counterexample: with all backends available, a settings request
carrying both camera_index 5 and the unrecognized model_type
"nonexistent" is rejected with 400, yet the stored camera index has
changed from 0 to 5 — so the store is not left unchanged, contrary to
the claim. -/
theorem C2_counterexample :
    (update_settings allAvail cfg0 c2req).status = 400 ∧
    (update_settings allAvail cfg0 c2req).store.camera_index = 5 ∧
    cfg0.camera_index = 0 := by
  refine ⟨rfl, rfl, rfl⟩

/-- C2 (amended): every update_settings call that returns 400 carries the
error body, leaves current_model_type unchanged, and sets
current_camera_index to the requested value when the body contains
camera_index (leaving it unchanged only when that key is absent). -/
theorem C2_rejected_model_effect (avail : Avail) (cfg : Config)
    (data : SettingsRequest)
    (h : (update_settings avail cfg data).status = 400) :
    (update_settings avail cfg data).body = .error "Model not available" ∧
    (update_settings avail cfg data).store.model_type = cfg.model_type ∧
    (update_settings avail cfg data).store.camera_index =
      data.camera_index.getD cfg.camera_index := by
  obtain ⟨ci, mt⟩ := data
  cases ci <;> cases mt <;>
    simp_all [update_settings] <;> split_ifs at h ⊢ <;> simp_all

/-- C2 witness: a request for the unavailable deepface backend together
with camera_index 7 is rejected, keeps model_type onnx, and stores
camera index 7. -/
theorem C2_rejected_model_effect_witness :
    (update_settings ⟨false, false, false⟩ ⟨1, "onnx"⟩
        ⟨some 7, some "deepface"⟩).body = .error "Model not available" ∧
    (update_settings ⟨false, false, false⟩ ⟨1, "onnx"⟩
        ⟨some 7, some "deepface"⟩).store.model_type = "onnx" ∧
    (update_settings ⟨false, false, false⟩ ⟨1, "onnx"⟩
        ⟨some 7, some "deepface"⟩).store.camera_index =
      (some (7 : Int)).getD 1 :=
  C2_rejected_model_effect ⟨false, false, false⟩ ⟨1, "onnx"⟩
    ⟨some 7, some "deepface"⟩ rfl

/-- C8: at startup, whenever the spec-side priority scan over
{deepface, onnx, keras} finds an available backend, the startup selection
of the code picks exactly that backend. -/
theorem C8_startup_priority (avail : Avail) (mt : String)
    (h : spec_first_available avail = some mt) :
    startup_model_type avail = mt := by
  cases hd : avail.deepface <;> cases ho : avail.onnx <;>
    cases hk : avail.keras <;>
      simp_all [spec_first_available, startup_model_type]

/-- C8 witness: with deepface unavailable and onnx loaded, startup
selects onnx. -/
theorem C8_startup_priority_witness :
    startup_model_type ⟨false, true, true⟩ = "onnx" :=
  C8_startup_priority ⟨false, true, true⟩ "onnx" rfl

/-- C9: an update_settings call whose body omits camera_index leaves the
stored camera index unchanged, one whose body omits model_type leaves
the stored model type unchanged, and a call with the empty body returns
200 echoing both current values with the store untouched. -/
theorem C9_omitted_fields_unchanged (avail : Avail) (cfg : Config)
    (data : SettingsRequest) :
    (data.camera_index = none →
      (update_settings avail cfg data).store.camera_index =
        cfg.camera_index) ∧
    (data.model_type = none →
      (update_settings avail cfg data).store.model_type = cfg.model_type) ∧
    (data.camera_index = none → data.model_type = none →
      update_settings avail cfg data =
        ⟨200, .ok cfg.camera_index cfg.model_type, cfg⟩) := by
  obtain ⟨ci, mt⟩ := data
  cases ci <;> cases mt <;>
    refine ⟨?_, ?_, ?_⟩ <;>
      intros <;> simp_all [update_settings] <;> split_ifs <;> simp_all

/-- C9 witness: the empty settings body against the initial store returns
200 with the current values and changes nothing. -/
theorem C9_omitted_fields_unchanged_witness :
    update_settings allAvail cfg0 ⟨none, none⟩ =
      ⟨200, .ok cfg0.camera_index cfg0.model_type, cfg0⟩ :=
  (C9_omitted_fields_unchanged allAvail cfg0 ⟨none, none⟩).2.2 rfl rfl

/-- C1 counterexample: a successful /predict response produced from one
detected DeepFace face has an all_predictions list of length 1, not 7:
the handler emits one (emotion, confidence) pair per detected face, not
the 7-class ranking the claim describes. -/
theorem C1_counterexample :
    predict allAvail "deepface" c1proc noFaces noFaces okReq =
      (200, .success
        ⟨true, "Happy", 90 / 100, [10, 20, 30, 40], [("Happy", 90 / 100)]⟩) ∧
    ¬ ([(("Happy" : String), (90 : ℚ) / 100)].length = 7) := by
  exact ⟨by rfl, by decide⟩

/-- C1 (amended): every 200 response of /predict carries one
all_predictions entry per entry of the backend results list, in results
order, each pairing that face entry with its top emotion and confidence;
its length equals the number of faces in the results list. -/
theorem C1_all_predictions_per_face (results : List FaceResult)
    (resp : PredictSuccess) (h : respond results = (200, .success resp)) :
    resp.all_predictions =
      results.map (fun r => (r.emotion, r.confidence)) ∧
    resp.all_predictions.length = results.length := by
  cases results with
  | nil => simp [respond] at h
  | cons top rest =>
    simp only [respond, Prod.mk.injEq, PredictBody.success.injEq] at h
    obtain ⟨-, rfl⟩ := h
    simp

/-- C1 witness: the one-face results list yields a 200 body whose
all_predictions is exactly the one corresponding pair. -/
theorem C1_all_predictions_per_face_witness :
    ([(("Happy" : String), (9 : ℚ) / 10)] : List (String × ℚ)) =
      [oneFace].map (fun r => (r.emotion, r.confidence)) ∧
    ([(("Happy" : String), (9 : ℚ) / 10)] : List (String × ℚ)).length =
      [oneFace].length :=
  C1_all_predictions_per_face [oneFace]
    ⟨true, "Happy", 9 / 10, [10, 20, 30, 40], [("Happy", 9 / 10)]⟩ rfl

/-- C4 counterexample: with two detected faces where the first has the
strictly smaller area, the top-level prediction, confidence and box of
the 200 response come from the first, smaller face — the handler takes
results[0], not the maximum-area rectangle. -/
theorem C4_counterexample :
    respond [smallFace, bigFace] =
      (200, .success
        ⟨true, "Sad", 1 / 2, [0, 0, 10, 10],
          [("Sad", 1 / 2), ("Happy", 3 / 4)]⟩) ∧
    smallFace.box.w * smallFace.box.h < bigFace.box.w * bigFace.box.h := by
  exact ⟨by rfl, by decide⟩

/-- C4 (amended): the reported top prediction is the first entry of the
backend results list — for the cascade backends, the first region in
detection scan order whose preprocessing and prediction succeed —
irrespective of the areas of the rectangles. -/
theorem C4_top_is_first_result (pp : Region → Option (List ℚ))
    (run : List ℚ → Except String (List ℚ)) (pre post : List Region)
    (f : Region) (r : FaceResult)
    (hpre : ∀ g ∈ pre, faceStep pp run g = none)
    (hf : faceStep pp run f = some r) :
    respond (process_frame_with_onnx pp run (pre ++ f :: post)) =
      (200, .success
        ⟨true, r.emotion, r.confidence,
          [r.box.x, r.box.y, r.box.w, r.box.h],
          (r :: post.filterMap (faceStep pp run)).map
            (fun t => (t.emotion, t.confidence))⟩) := by
  rw [process_frame_with_onnx_eq, List.filterMap_append,
    List.filterMap_cons, hf, List.filterMap_eq_nil_iff.mpr hpre]
  simp [respond]

/-- C4 witness: after one region whose preprocessing fails, the first
succeeding region in scan order supplies the top prediction. -/
theorem C4_top_is_first_result_witness :
    respond (process_frame_with_onnx ppEx runEx
        ([badRegion] ++ goodRegion :: [])) =
      (200, .success
        ⟨true, "Happy", 1, [5, 5, 20, 20], [("Happy", 1)]⟩) := by
  have h := C4_top_is_first_result ppEx runEx [badRegion] [] goodRegion
    ⟨goodRegion, "Happy", 1⟩
    (by intro g hg; simp only [List.mem_singleton] at hg; subst hg; rfl)
    (by decide)
  simpa using h

/-- C5 counterexample: a request with a file part, a non-empty filename
and undecodable bytes, handled while the ONNX backend is selected, gets
a 500 response, not the 400 the claim requires for every backend. -/
theorem C5_counterexample :
    predict allAvail "onnx" noFaces noFaces noFaces badImageReq =
      (500, .err none "Prediction failed: bad frame") ∧
    ¬ ((500 : Nat) = 400) := by
  exact ⟨rfl, by decide⟩

/-- C5 (amended): a missing file part and an empty filename give 400 with
an error body for every backend selection, and undecodable image bytes
give the no-face 400 under the deepface backend but a 500 under the onnx
and keras backends, where the decode failure surfaces as an exception in
frame processing. -/
theorem C5_input_error_responses {Image : Type} (avail : Avail)
    (mt : String) (pdf po pk : Image → List FaceResult)
    (req : PredictRequest Image) :
    (req.hasFile = false →
      predict avail mt pdf po pk req = (400, .err none "No file uploaded")) ∧
    (req.hasFile = true → req.filename = "" →
      predict avail mt pdf po pk req = (400, .err none "Empty filename")) ∧
    (req.hasFile = true → req.filename ≠ "" → req.decoded = none →
      mt = "deepface" → avail.deepface = true →
      predict avail mt pdf po pk req =
        (400, .err (some false) "No face detected")) ∧
    (req.hasFile = true → req.filename ≠ "" → req.decoded = none →
      mt = "onnx" → avail.onnx = true →
      predict avail mt pdf po pk req =
        (500, .err none "Prediction failed: bad frame")) ∧
    (req.hasFile = true → req.filename ≠ "" → req.decoded = none →
      mt = "keras" → avail.keras = true →
      predict avail mt pdf po pk req =
        (500, .err none "Prediction failed: bad frame")) := by
  refine ⟨?_, ?_, ?_, ?_, ?_⟩ <;> intros <;>
    subst_vars <;> simp_all [predict, respond]

/-- C5 witness: concrete instances of the five branches — a missing file
part gives the 400 upload error, and undecodable bytes give 500 under
keras. -/
theorem C5_input_error_responses_witness :
    predict allAvail "keras" noFaces noFaces noFaces
        ⟨false, "x", some ()⟩ = (400, .err none "No file uploaded") ∧
    predict allAvail "keras" noFaces noFaces noFaces badImageReq =
      (500, .err none "Prediction failed: bad frame") :=
  ⟨(C5_input_error_responses allAvail "keras" noFaces noFaces noFaces
      ⟨false, "x", some ()⟩).1 rfl,
    (C5_input_error_responses allAvail "keras" noFaces noFaces noFaces
      badImageReq).2.2.2.2 rfl (by decide) rfl rfl rfl⟩

/-- C10: whenever the request is well formed, the bytes decode, and the
selected backend processing yields an empty results list, /predict
answers 400 with exactly the body success false, error No face detected,
uniformly for the deepface, onnx and keras selections. -/
theorem C10_zero_faces_strict_reject {Image : Type} (avail : Avail)
    (mt : String) (pdf po pk : Image → List FaceResult)
    (req : PredictRequest Image) (img : Image)
    (h1 : req.hasFile = true) (h2 : req.filename ≠ "")
    (h3 : req.decoded = some img)
    (h4 : (mt = "deepface" ∧ avail.deepface = true ∧ pdf img = []) ∨
      (mt = "onnx" ∧ avail.onnx = true ∧ po img = []) ∨
      (mt = "keras" ∧ avail.keras = true ∧ pk img = [])) :
    predict avail mt pdf po pk req =
      (400, .err (some false) "No face detected") := by
  rcases h4 with ⟨rfl, ha, hz⟩ | ⟨rfl, ha, hz⟩ | ⟨rfl, ha, hz⟩ <;>
    simp_all [predict, respond]

/-- C10 witness: a decodable image on which the onnx processing finds no
faces gets the strict-reject 400 body. -/
theorem C10_zero_faces_strict_reject_witness :
    predict allAvail "onnx" noFaces noFaces noFaces okReq =
      (400, .err (some false) "No face detected") :=
  C10_zero_faces_strict_reject allAvail "onnx" noFaces noFaces noFaces
    okReq () rfl (by decide) rfl (Or.inr (Or.inl ⟨rfl, rfl, rfl⟩))

/-- C3 counterexample: in a 100 by 100 frame, a DeepFace detection 95
wide (above 90 percent of the frame width) but only 50 high survives the
whole-image filter and reaches the results list, because the code
filters only when both dimensions exceed the threshold — contrary to the
claim that exceeding either dimension suffices. -/
theorem C3_counterexample :
    process_frame_with_deepface 100 100 [wideDet] =
      [⟨⟨0, 0, 95, 50⟩, "Angry", 80 / 100⟩] ∧
    10 * (95 : Int) > 9 * 100 := by
  exact ⟨by rfl, by decide⟩

/-- C3 (amended): the DeepFace adapter drops a detection exactly when
both its width exceeds 0.9 of the frame width and its height exceeds 0.9
of the frame height; every other detection reaches the results list, in
order, with capitalized label and score rescaled to [0,1]. -/
theorem C3_whole_image_filter_both (frame_w frame_h : Int)
    (dets : List DFDetection) :
    process_frame_with_deepface frame_w frame_h dets =
      (dets.filter (fun d => ¬ isWholeImage frame_w frame_h d.region)).map
        (fun d =>
          ⟨d.region, pyCapitalize d.dominant_emotion, d.score / 100⟩) :=
  process_frame_with_deepface_eq frame_w frame_h dets

/-- C7: in the ONNX and Keras processors, a region whose per-face step
fails (preprocessing returned none, or the model call raised) is simply
omitted: the results of the whole list are those of the surrounding
regions concatenated, and every region whose step succeeds still
contributes its entry. -/
theorem C7_per_region_failure_isolated (pp : Region → Option (List ℚ))
    (run : List ℚ → Except String (List ℚ)) (pre post : List Region)
    (bad : Region) (hbad : faceStep pp run bad = none) :
    process_frame_with_onnx pp run (pre ++ bad :: post) =
      process_frame_with_onnx pp run pre ++
        process_frame_with_onnx pp run post ∧
    process_frame_with_keras pp run (pre ++ bad :: post) =
      process_frame_with_keras pp run pre ++
        process_frame_with_keras pp run post ∧
    ∀ f ∈ pre ++ bad :: post, ∀ r, faceStep pp run f = some r →
      r ∈ process_frame_with_onnx pp run (pre ++ bad :: post) := by
  refine ⟨?_, ?_, ?_⟩
  · rw [process_frame_with_onnx_eq, process_frame_with_onnx_eq,
      process_frame_with_onnx_eq, List.filterMap_append,
      List.filterMap_cons, hbad]
  · rw [process_frame_with_keras_eq, process_frame_with_keras_eq,
      process_frame_with_keras_eq, List.filterMap_append,
      List.filterMap_cons, hbad]
  · intro f hf r hr
    rw [process_frame_with_onnx_eq]
    exact List.mem_filterMap.mpr ⟨f, hf, hr⟩

/-- C7 witness: with a failing region between two succeeding ones, the
failing region is dropped and both neighbours are still processed. -/
theorem C7_per_region_failure_isolated_witness :
    process_frame_with_onnx ppEx runEx
        ([goodRegion] ++ badRegion :: [goodRegion]) =
      process_frame_with_onnx ppEx runEx [goodRegion] ++
        process_frame_with_onnx ppEx runEx [goodRegion] :=
  (C7_per_region_failure_isolated ppEx runEx [goodRegion] [goodRegion]
    badRegion rfl).1

theorem gridToTensor4_shape (g : List (List Nat)) (hlen : g.length = 48)
    (hrows : ∀ row ∈ g, row.length = 48) :
    hasShape_1_48_48_1 (gridToTensor4 g) := by
  refine ⟨rfl, ?_⟩
  intro a ha
  rw [gridToTensor4, List.mem_singleton] at ha
  subst ha
  refine ⟨by rw [List.length_map]; exact hlen, ?_⟩
  intro r hr
  rw [List.mem_map] at hr
  obtain ⟨row, hrow, rfl⟩ := hr
  refine ⟨by rw [List.length_map]; exact hrows row hrow, ?_⟩
  intro c hc
  rw [List.mem_map] at hc
  obtain ⟨v, _, rfl⟩ := hc
  rfl

theorem gridToTensor4_range (g : List (List Nat))
    (hvals : ∀ row ∈ g, ∀ v ∈ row, v ≤ 255) :
    allInUnitInterval (gridToTensor4 g) := by
  intro a ha
  rw [gridToTensor4, List.mem_singleton] at ha
  subst ha
  intro r hr
  rw [List.mem_map] at hr
  obtain ⟨row, hrow, rfl⟩ := hr
  intro c hc
  rw [List.mem_map] at hc
  obtain ⟨v, hv, rfl⟩ := hc
  intro q hq
  rw [List.mem_singleton] at hq
  subst hq
  have hv255 : v ≤ 255 := hvals row hrow v hv
  constructor
  · exact div_nonneg (Nat.cast_nonneg v) (by norm_num)
  · rw [div_le_one (by norm_num)]
    exact_mod_cast hv255

/-- C6: for every non-empty uint8 grayscale region, both preprocessors
succeed and return the tensor obtained by resizing to 48 by 48 and
dividing by 255, whose shape is exactly (1, 48, 48, 1) and whose
elements all lie in [0, 1]. -/
theorem C6_preprocessor_shape_and_range (img : List (List Nat))
    (hh : gridH img ≠ 0) (hw : gridW img ≠ 0)
    (_hb : ∀ row ∈ img, ∀ v ∈ row, v ≤ 255) :
    preprocess_face_for_onnx img = some (gridToTensor4 (resize48 img)) ∧
    preprocess_face_for_keras img = some (gridToTensor4 (resize48 img)) ∧
    hasShape_1_48_48_1 (gridToTensor4 (resize48 img)) ∧
    allInUnitInterval (gridToTensor4 (resize48 img)) := by
  refine ⟨?_, ?_, ?_, ?_⟩
  · simp [preprocess_face_for_onnx, hh, hw]
  · simp [preprocess_face_for_keras, hh, hw]
  · exact gridToTensor4_shape (resize48 img) (resize48_length img)
      (fun row hrow => (resize48_rows img row hrow).1)
  · exact gridToTensor4_range (resize48 img)
      (fun row hrow => (resize48_rows img row hrow).2)

/-- C6 witness: a one-pixel region of value 200 satisfies the
hypotheses, so both preprocessors return the (1, 48, 48, 1) tensor in
[0, 1]. -/
theorem C6_preprocessor_shape_and_range_witness :
    preprocess_face_for_onnx [[200]] =
      some (gridToTensor4 (resize48 [[200]])) ∧
    preprocess_face_for_keras [[200]] =
      some (gridToTensor4 (resize48 [[200]])) ∧
    hasShape_1_48_48_1 (gridToTensor4 (resize48 [[200]])) ∧
    allInUnitInterval (gridToTensor4 (resize48 [[200]])) :=
  C6_preprocessor_shape_and_range [[200]] (by decide) (by decide)
    (by intro row hrow v hv; simp_all)

end EmotionApp
